import Mathlib

/-!
Verification of the Sleepy Storybook backend core: shallow embedding of the
reflection workflow (`backend/langgraph_workflow.py`), the storyteller/judge
agents (`backend/agents.py`), the conversational router
(`backend/conversational_agent.py`) and the text utilities
(`backend/utils/text_processing.py`, `backend/config/constants.py`,
`backend/config/settings.py`), together with proofs of the specified
properties.
-/

namespace Sleepy

/-! ## String helpers: CPython whitespace, `str.strip`, substring search

The strings handled by this code base (labels such as `TITLE:`, judge
score lines, error messages) are ASCII, so we model the `\s` character
class and `str.strip()` by the ASCII whitespace set used by CPython. -/

/-- Whitespace characters of the CPython `\s` regex class and `str.strip()`
(ASCII portion): space, tab, newline, carriage return, vertical tab, form
feed. -/
def pySpace (c : Char) : Bool :=
  c == ' ' || c == '\t' || c == '\n' || c == '\r' || c == '\x0b' || c == '\x0c'

/-- `str.strip()` on a character list: drop whitespace from both ends. -/
def stripChars (cs : List Char) : List Char :=
  ((cs.dropWhile pySpace).reverse.dropWhile pySpace).reverse

/-- `str.strip()` on a `String`. -/
def pyStrip (s : String) : String := String.mk (stripChars s.data)

/-- Python `pat in s` substring test on character lists. -/
def subIn (pat cs : List Char) : Bool :=
  (List.range (cs.length + 1)).any fun i => pat.isPrefixOf (cs.drop i)

/-- Python `pat in s` substring test on strings. -/
def strHas (s pat : String) : Bool := subIn pat.data s.data

/-- Python `str.lower()` (per-character case mapping; the strings involved
are ASCII). -/
def lowerStr (s : String) : String := String.mk (s.data.map Char.toLower)

/-- Python `str.upper()`. -/
def upperStr (s : String) : String := String.mk (s.data.map Char.toUpper)

/-! ## `count_paragraphs` (`backend/utils/text_processing.py`)

`count_paragraphs` splits the stripped text at matches of the pattern
`RegexPatterns.PARAGRAPH_SPLIT = r'\n\s*\n'` and counts the segments that
still contain non-whitespace characters. -/

/-- Length of the match of the regex `\n\s*\n` starting at the head of `cs`,
with the greedy backtracking semantics of `re`: the leading `\n` is literal,
`\s*` consumes as many whitespace characters as possible while a closing
`\n` still follows, so the match runs through the last `\n` of the
whitespace run. Returns `none` when no match starts here. -/
def blankLen (cs : List Char) : Option Nat :=
  match cs with
  | '\n' :: rest =>
      let ws := rest.takeWhile pySpace
      let tailNoNl := ws.reverse.takeWhile fun c => !(c == '\n')
      if ws.length = tailNoNl.length then none
      else some ((ws.length - tailNoNl.length - 1) + 2)
  | _ => none

/-- One pass of `re.split(r'\n\s*\n', ·)`: scan left to right, cutting at
each (non-overlapping, leftmost) match. `fuel` bounds the recursion; every
step consumes at least one character of `cs`, so `fuel = cs.length` (as
supplied by `pySplitBlank`) never runs out before `cs` is empty. -/
def splitGo : Nat → List Char → List Char → List (List Char)
  | _, [], acc => [acc.reverse]
  | 0, cs, acc => [acc.reverse ++ cs]
  | n + 1, c :: cs, acc =>
      match blankLen (c :: cs) with
      | some m => acc.reverse :: splitGo n ((c :: cs).drop m) []
      | none => splitGo n cs (c :: acc)

/-- `re.split(r'\n\s*\n', ·)` on a character list. -/
def pySplitBlank (cs : List Char) : List (List Char) :=
  splitGo cs.length cs []

/-- `count_paragraphs` from `backend/utils/text_processing.py`: `0` for the
empty string, otherwise strip the text, split it at `\n\s*\n` and count the
segments whose own `strip()` is non-empty. -/
def count_paragraphs (s : String) : Nat :=
  if s = "" then 0
  else
    ((pySplitBlank (stripChars s.data)).filter
      fun p => !(stripChars p).isEmpty).length

/-- Paragraph count as worded by the specification: the number of segments
containing at least one non-whitespace character when the stripped text is
split at matches of newline, optional whitespace, newline. -/
def claimParagraphCount (s : String) : Nat :=
  ((pySplitBlank (stripChars s.data)).filter
    fun p => p.any fun c => !pySpace c).length

/-! ## Label-pattern extraction (`re.search` over labeled LLM output)

Both agents extract fields from free-form LLM text with `re.search` and
case-insensitive patterns of the shape `LABEL:\s*(...)`. We model
`re.search` as trying the pattern at every position, leftmost first. -/

/-- Case-insensitive match of `label` at the head of `cs` (the literal part
of an `re.IGNORECASE` pattern); returns the remaining characters. -/
def matchLabel : List Char → List Char → Option (List Char)
  | [], cs => some cs
  | _ :: _, [] => none
  | l :: ls, c :: cs => if l.toLower = c.toLower then matchLabel ls cs else none

/-- `re.search` driver: try the position matcher `f` at every suffix,
leftmost first. -/
def searchFrom (f : List Char → Option α) : List Char → Option α
  | [] => f []
  | c :: cs =>
      match f (c :: cs) with
      | some r => some r
      | none => searchFrom f cs

/-- Position matcher for `LABEL:\s*(\d+)`: the label (case-insensitively),
then greedy `\s*`, then the maximal digit run, which must be non-empty.
(Backtracking on `\s*` cannot help: a shorter whitespace run leaves a
whitespace character in front, which is not a digit.) -/
def scoreAt (label : List Char) (cs : List Char) : Option (List Char) :=
  match matchLabel label cs with
  | none => none
  | some rest =>
      let ds := (rest.dropWhile pySpace).takeWhile Char.isDigit
      if ds.isEmpty then none else some ds

/-- `re.search(r'LABEL:\s*(\d+)', s, re.IGNORECASE)`, returning the digit
capture group. -/
def findScore (label : String) (s : String) : Option (List Char) :=
  searchFrom (scoreAt label.data) s.data

/-- Position matcher for `APPROVED:\s*(YES|NO)`: the label, greedy `\s*`,
then `YES` or `NO` case-insensitively (`YES` tried first, as in the
alternation). Returns the truth of the later Python test
`group(1).upper() == "YES"`. -/
def yesNoAt (label : List Char) (cs : List Char) : Option Bool :=
  match matchLabel label cs with
  | none => none
  | some rest =>
      let r := rest.dropWhile pySpace
      match matchLabel ['Y', 'E', 'S'] r with
      | some _ => some true
      | none =>
          match matchLabel ['N', 'O'] r with
          | some _ => some false
          | none => none

/-- Position matcher for `LABEL:\s*([\s\S]+)` followed by `.strip()` on the
capture: the group must be non-empty, and whichever split between the
greedy `\s*` and the group the engine settles on, the stripped capture
equals the stripped remainder after the label. -/
def tailAt (label : List Char) (cs : List Char) : Option (List Char) :=
  match matchLabel label cs with
  | none => none
  | some rest => if rest.isEmpty then none else some (stripChars rest)

/-- Digit run to a natural number, as Python `int` on a `\d+` capture. -/
def digitsToNat (cs : List Char) : Nat :=
  cs.foldl (fun acc c => acc * 10 + (c.toNat - '0'.toNat)) 0

/-- Python `int(str)`: raises `ValueError` unless the text is a (non-empty)
digit string. Modelled in `Except`, so that the judge parser can be proved
never to raise. -/
def pyInt (cs : List Char) : Except String Nat :=
  if cs.isEmpty then Except.error "invalid literal for int"
  else if cs.all Char.isDigit then Except.ok (digitsToNat cs)
  else Except.error "invalid literal for int"

/-! ## Judge evaluation parser (`JudgeAgent._parse_evaluation`) -/

/-- Result dictionary of `JudgeAgent._parse_evaluation`. -/
structure Evaluation where
  clarity : Nat
  moralValue : Nat
  ageAppropriateness : Nat
  score : Nat
  approved : Bool
  feedback : String
deriving Repr, DecidableEq

/-- One score field of the judge response: the extracted digits through
`int`, or the documented default `7` when the pattern does not match. -/
def scoreField (label : String) (s : String) : Except String Nat :=
  match findScore label s with
  | some ds => pyInt ds
  | none => Except.ok 7

/-- `JudgeAgent._parse_evaluation` with the potentially-raising `int` calls
made explicit in `Except`. -/
def parse_evaluation (s : String) : Except String Evaluation := do
  let clarity ← scoreField "CLARITY:" s
  let moral ← scoreField "MORAL:" s
  let age ← scoreField "AGE_APPROPRIATE:" s
  let overall ← scoreField "OVERALL:" s
  let approved :=
    match searchFrom (yesNoAt "APPROVED:".data) s.data with
    | some b => b
    | none => false
  let feedback :=
    match searchFrom (tailAt "FEEDBACK:".data) s.data with
    | some f => String.mk f
    | none => "Story evaluated."
  return ⟨clarity, moral, age, overall, approved, feedback⟩

/-- Total form of `JudgeAgent._parse_evaluation` (the digit captures always
convert; `parse_evaluation_never_raises` below proves the two agree). -/
def parse_evaluation_total (s : String) : Evaluation :=
  { clarity := (findScore "CLARITY:" s).elim 7 digitsToNat
    moralValue := (findScore "MORAL:" s).elim 7 digitsToNat
    ageAppropriateness := (findScore "AGE_APPROPRIATE:" s).elim 7 digitsToNat
    score := (findScore "OVERALL:" s).elim 7 digitsToNat
    approved :=
      match searchFrom (yesNoAt "APPROVED:".data) s.data with
      | some b => b
      | none => false
    feedback :=
      match searchFrom (tailAt "FEEDBACK:".data) s.data with
      | some f => String.mk f
      | none => "Story evaluated." }

/-! ## Story parser (`StorytellerAgent._parse_story_response`) -/

/-- Dictionary returned by `StorytellerAgent._parse_story_response`. -/
structure StoryDraft where
  title : String
  content : String
deriving Repr, DecidableEq

/-- Matcher for `(.+?)\n` at a given position: at least one non-newline
character, lazily extended until a literal newline; succeeds exactly when
the text here is non-empty, does not begin with a newline, and a newline
occurs later, capturing up to the first newline. -/
def lazyLineAt (r : List Char) : Option (List Char) :=
  match r with
  | [] => none
  | c :: _ =>
      if c = '\n' then none
      else if r.contains '\n' then some (r.takeWhile fun c => !(c == '\n'))
      else none

/-- Backtracking loop for `TITLE:\s*(.+?)\n` after the label: the greedy
`\s*` first consumes `k` whitespace characters (started at the maximal run
by `titleAt`) and backs off one character at a time until `(.+?)\n` matches. -/
def titleBacktrack (rest : List Char) : Nat → Option (List Char)
  | 0 => lazyLineAt rest
  | k + 1 =>
      match lazyLineAt (rest.drop (k + 1)) with
      | some r => some r
      | none => titleBacktrack rest k

/-- Position matcher for `TITLE:\s*(.+?)\n` (`re.IGNORECASE`), returning the
capture group. -/
def titleAt (cs : List Char) : Option (List Char) :=
  match matchLabel "TITLE:".data cs with
  | none => none
  | some rest => titleBacktrack rest (rest.takeWhile pySpace).length

/-- `StorytellerAgent._parse_story_response`: extract the `TITLE:` line and
the `STORY:` block; on a missing title fall back to `"A Bedtime Story"`, on
a missing story block use the whole response text as content. -/
def parse_story_response (s : String) : StoryDraft :=
  { title :=
      match searchFrom titleAt s.data with
      | some t => String.mk (stripChars t)
      | none => "A Bedtime Story"
    content :=
      match searchFrom (tailAt "STORY:".data) s.data with
      | some c => String.mk c
      | none => s }

/-! ## Model invoker with fallback (`_invoke_with_fallback`)

`StorytellerAgent._invoke_with_fallback` and
`JudgeAgent._invoke_with_fallback` (`backend/agents.py`) and
`ConversationalAgent._invoke_with_fallback`
(`backend/conversational_agent.py`) try an ordered candidate list, continue
past errors classified as retryable by substring tests on the lowercased
error message, and finally re-raise the last captured error. -/

/-- Python exception values observable from the invoker: a provider (Groq)
error with its message, the `RuntimeError` fallback, and the
`ModelExhaustedError` wrapper that the specification describes (the source
never constructs it; it exists here so that the specified behaviour can be
stated and compared). -/
inductive PyError where
  | groq (msg : String)
  | runtimeError (msg : String)
  | modelExhausted (inner : PyError)
deriving Repr, DecidableEq

/-- `str(e)` as used for error classification. -/
def errMsg : PyError → String
  | .groq m => m
  | .runtimeError m => m
  | .modelExhausted e => errMsg e

/-- Retryable-error test of the storyteller/judge invoker: on
`msg = str(e).lower()`, `("rate limit" in msg) or ("429" in msg) or
("limit" in msg and "token" in msg) or ("decommission" in msg) or
("invalid" in msg)`. -/
def storytellerRetryable (e : PyError) : Bool :=
  let msg := lowerStr (errMsg e)
  strHas msg "rate limit" || strHas msg "429" ||
    (strHas msg "limit" && strHas msg "token") ||
    strHas msg "decommission" || strHas msg "invalid"

/-- Retryable-error test of the conversational invoker:
`any(keyword in error_msg for keyword in ["rate limit", "429",
"decommission", "invalid", "token"])` on the lowercased message. -/
def conversationRetryable (e : PyError) : Bool :=
  let msg := lowerStr (errMsg e)
  ["rate limit", "429", "decommission", "invalid", "token"].any
    fun k => strHas msg k

instance {ε α : Type} [DecidableEq ε] [DecidableEq α] :
    DecidableEq (Except ε α) := fun a b =>
  match a, b with
  | .ok x, .ok y =>
      if h : x = y then isTrue (by rw [h])
      else isFalse (by intro hh; cases hh; exact h rfl)
  | .error x, .error y =>
      if h : x = y then isTrue (by rw [h])
      else isFalse (by intro hh; cases hh; exact h rfl)
  | .ok _, .error _ => isFalse (by intro hh; cases hh)
  | .error _, .ok _ => isFalse (by intro hh; cases hh)

/-- Outcome of one `_invoke_with_fallback` run: which candidates were
actually attempted (in order), and the returned value or raised error. -/
structure InvokeTrace where
  attempted : List String
  result : Except PyError String
deriving Repr, DecidableEq

/-- The fallback loop, shared by all three agents: try each candidate in
order; on success return its result; on a retryable error remember it and
continue; on a non-retryable error stop; when the list is exhausted raise
the last captured error (or the per-agent `RuntimeError` if none was). The
`attempt` function abstracts `ChatGroq(...).invoke(messages)` for one
model. -/
def invokeAux (attempt : String → Except PyError String)
    (retryable : PyError → Bool) (noneErr : PyError) :
    List String → Option PyError → List String → InvokeTrace
  | [], last, tried => ⟨tried.reverse, Except.error (last.getD noneErr)⟩
  | m :: rest, _lastErr, tried =>
      match attempt m with
      | Except.ok r => ⟨(m :: tried).reverse, Except.ok r⟩
      | Except.error e =>
          if retryable e then
            invokeAux attempt retryable noneErr rest (some e) (m :: tried)
          else ⟨(m :: tried).reverse, Except.error e⟩

/-- `StorytellerAgent._invoke_with_fallback`. -/
def storyteller_invoke (attempt : String → Except PyError String)
    (candidates : List String) : InvokeTrace :=
  invokeAux attempt storytellerRetryable
    (.runtimeError "All Groq models failed for storyteller") candidates none []

/-- `ConversationalAgent._invoke_with_fallback` (the extra
`attempt < len(self.model_candidates)` guard only suppresses the `continue`
on the final candidate, where the loop ends anyway, so the loop is the same
shape). -/
def conversation_invoke (attempt : String → Except PyError String)
    (candidates : List String) : InvokeTrace :=
  invokeAux attempt conversationRetryable
    (.runtimeError "All Groq models failed for conversation") candidates none []

/-! ## Reflection workflow (`backend/langgraph_workflow.py`)

The story-generation graph: `story_creator → story_evaluator →
{paragraph_formatter | increment_iteration | finalize_story}`, with
`paragraph_formatter → story_evaluator`, `increment_iteration →
story_creator` and `finalize_story → END`. The LLM responses are abstracted
as oracles indexed by the number of calls made so far; everything else is
translated from the node code. -/

/-- `length_type` values (`StoryLength`). -/
inductive LengthType where
  | short
  | medium
  | long
deriving Repr, DecidableEq

/-- `settings.story.PARAGRAPH_STRUCTURE` (`backend/config/settings.py`). -/
def paragraphStructure : LengthType → Nat
  | .short => 2
  | .medium => 3
  | .long => 3

/-- `settings.story.MAX_ITERATIONS`. -/
def maxIterationsDefault : Nat := 3

/-- Values of the `next_step` key set by `StoryEvaluatorNode` and consumed
by `route_after_evaluation`. -/
inductive NextStep where
  | refine
  | format_paragraphs
  | finalize
deriving Repr, DecidableEq

/-- Approval rule of `StoryEvaluatorNode.__call__`:
`score >= 9 and clarity >= 8 and moralValue >= 8 and
ageAppropriateness >= 8`. -/
def approved_check (ev : Evaluation) : Bool :=
  decide (9 ≤ ev.score) && decide (8 ≤ ev.clarity) &&
    decide (8 ≤ ev.moralValue) && decide (8 ≤ ev.ageAppropriateness)

/-- The `next_step` decision at the end of `StoryEvaluatorNode.__call__`
(the routing that `route_after_evaluation` then follows). -/
def evaluator_next_step (approved structure_correct : Bool)
    (format_attempts iteration max_iterations : Nat) : NextStep :=
  if approved && structure_correct then .finalize
  else if !structure_correct then
    if 2 ≤ format_attempts then .finalize else .format_paragraphs
  else if max_iterations ≤ iteration then .finalize
  else .refine

/-- The transition rules exactly as the specification orders them:
structure check first (with the reformat ceiling), then approval, then the
iteration budget, else refine. -/
def spec_next_step (approved structure_ok : Bool)
    (format_attempts iteration max_iterations : Nat) : NextStep :=
  if !structure_ok then
    if 2 ≤ format_attempts then .finalize else .format_paragraphs
  else if approved && structure_ok then .finalize
  else if max_iterations ≤ iteration then .finalize
  else .refine

/-- Nodes of the story-generation graph (plus `done` for `END`). -/
inductive WNode where
  | creator
  | evaluator
  | formatter
  | increment
  | finalize
  | done
deriving Repr, DecidableEq

/-- The `StoryGenerationState` fields the graph logic reads or writes,
plus the current node and per-agent LLM call counters used to index the
response oracles. -/
structure WConfig where
  node : WNode
  lengthType : LengthType
  iteration : Nat
  maxIterations : Nat
  formatAttempts : Nat
  storyTitle : String
  storyContent : String
  targetParagraphs : Nat
  actualParagraphs : Nat
  structureCorrect : Bool
  approved : Bool
  evaluationFeedback : String
  overallScore : Nat
  storyCalls : Nat
  judgeCalls : Nat
deriving Repr, DecidableEq

/-- The raw LLM completions, abstracted: `storyResponse n` is the text the
storyteller returns on its `n`-th call (create, refine or reformat),
`judgeResponse n` the text of the judge's `n`-th call. -/
structure Oracles where
  storyResponse : Nat → String
  judgeResponse : Nat → String

/-- One node execution of the compiled story-generation graph. -/
def step (o : Oracles) (c : WConfig) : WConfig :=
  match c.node with
  | .creator =>
      -- StoryCreatorNode: create or refine, then recount paragraphs
      let draft := parse_story_response (o.storyResponse c.storyCalls)
      let actual := count_paragraphs draft.content
      let target := paragraphStructure c.lengthType
      { c with
          node := .evaluator
          storyTitle := draft.title
          storyContent := draft.content
          actualParagraphs := actual
          targetParagraphs := target
          structureCorrect := actual == target
          storyCalls := c.storyCalls + 1 }
  | .evaluator =>
      -- StoryEvaluatorNode: judge, approve, pick next_step
      let ev := parse_evaluation_total (o.judgeResponse c.judgeCalls)
      let approved := approved_check ev
      let next := evaluator_next_step approved c.structureCorrect
        c.formatAttempts c.iteration c.maxIterations
      let c1 := { c with
          approved := approved
          overallScore := ev.score
          evaluationFeedback := ev.feedback
          judgeCalls := c.judgeCalls + 1 }
      match next with
      | .finalize => { c1 with node := .finalize }
      | .format_paragraphs => { c1 with node := .formatter }
      | .refine => { c1 with node := .increment }
  | .formatter =>
      -- ParagraphFormatterNode: rewrite, recount, bump format_attempts
      let draft := parse_story_response (o.storyResponse c.storyCalls)
      let actual := count_paragraphs draft.content
      { c with
          node := .evaluator
          storyTitle := draft.title
          storyContent := draft.content
          actualParagraphs := actual
          structureCorrect := actual == c.targetParagraphs
          formatAttempts := c.formatAttempts + 1
          storyCalls := c.storyCalls + 1 }
  | .increment =>
      -- IncrementIterationNode
      { c with node := .creator, iteration := c.iteration + 1 }
  | .finalize =>
      -- FinalizeStoryNode packages the story and the graph ends
      { c with node := .done }
  | .done => c

/-- `n` steps of the graph. -/
def run (o : Oracles) (c : WConfig) : Nat → WConfig
  | 0 => c
  | n + 1 => run o (step o c) n

/-- The initial state built by `run_story_generation` (entry point
`story_creator`; `format_attempts` absent, hence read as `0`). -/
def initConfig (lt : LengthType) (maxIter : Nat) : WConfig :=
  { node := .creator
    lengthType := lt
    iteration := 1
    maxIterations := maxIter
    formatAttempts := 0
    storyTitle := ""
    storyContent := ""
    targetParagraphs := paragraphStructure lt
    actualParagraphs := 0
    structureCorrect := false
    approved := false
    evaluationFeedback := ""
    overallScore := 0
    storyCalls := 0
    judgeCalls := 0 }

/-! ## Conversational router (`ConversationalAgent.process_message`)

`process_message` runs: identity extraction (`try/except: pass`, can never
raise), then the safety check, the self-inquiry check and the story-request
check (each an LLM call wrapped in `try/except` with a documented
fallback), and finally either the story-request handler (whose
context-analysis call is also wrapped) or the plain conversation handler,
whose `generate_conversational_response` call is NOT wrapped. The outcomes
of the five underlying LLM invocations are abstracted as `Except` values. -/

/-- Per-session memory (`self.sessions[sid]`): remembered name and age. -/
structure SessionCtx where
  name : Option String
  age : Option Nat
deriving Repr, DecidableEq

/-- Return dictionary of `process_message`. -/
structure RouteResult where
  kind : String
  response : String
  shouldGenerateStory : Bool
  storyPrompt : Option String
deriving Repr, DecidableEq

/-- Outcomes of the five LLM invocations `process_message` can make, in
pipeline order: safety classifier, self-inquiry detector, story-request
detector, context analyzer, conversational reply generator. -/
structure RouterCalls where
  safety : Except PyError String
  selfInquiry : Except PyError String
  storyDetect : Except PyError String
  contextAnalysis : Except PyError String
  convReply : Except PyError String

/-- `ConversationalAgent._handle_inappropriate_content`. -/
def handleInappropriate (ctx : SessionCtx) : RouteResult :=
  let namePart := match ctx.name with
    | some n => n ++ ", "
    | none => ""
  { kind := "inappropriate"
    response := "Oh " ++ namePart ++
      "I'm sorry, but I can only create stories that are fun and safe for children. How about we try a different adventure? Maybe something with friendly animals, magic, or exploring new places? 🌟"
    shouldGenerateStory := false
    storyPrompt := none }

/-- `ConversationalAgent._handle_self_inquiry`. -/
def handleSelfInquiry (ctx : SessionCtx) : RouteResult :=
  let response := match ctx.name with
    | some n =>
        "Of course I remember you, " ++ n ++ "! 😊 " ++
          (match ctx.age with
           | some a => "You're " ++ toString a ++ " years old. "
           | none => "") ++
          "Is there anything else you'd like to tell me about yourself, or shall we create a story?"
    | none =>
        "I don't think you've told me your name yet! What should I call you? 😊"
  { kind := "conversation"
    response := response
    shouldGenerateStory := false
    storyPrompt := none }

/-- `ConversationalAgent._handle_story_request` with the context-aware
prompt already resolved. -/
def handleStoryRequest (ctx : SessionCtx) (prompt : String) : RouteResult :=
  let namePart := match ctx.name with
    | some n => n ++ ", "
    | none => ""
  { kind := "story_request"
    response := "Great idea, " ++ namePart ++ "let me create that story for you! ✨"
    shouldGenerateStory := true
    storyPrompt := some prompt }

/-- `AgentConfig.MAX_CONTEXT_ANALYSIS_HISTORY`. -/
def maxContextAnalysisHistory : Nat := 8

/-- `ConversationalAgent.is_inappropriate_content`: on success test for
"INAPPROPRIATE" in the stripped, uppercased reply; on a raised classifier
error fail open (allow the message). -/
def is_inappropriate_content (safety : Except PyError String) : Bool :=
  match safety with
  | Except.ok r => strHas (upperStr (pyStrip r)) "INAPPROPRIATE"
  | Except.error _ => false

/-- `ConversationalAgent.is_question_about_self`: on success test for "yes"
in the stripped, lowercased reply; on error fall back to the keyword check
on the message. -/
def is_question_about_self (selfInquiry : Except PyError String)
    (message : String) : Bool :=
  match selfInquiry with
  | Except.ok r => strHas (lowerStr (pyStrip r)) "yes"
  | Except.error _ =>
      strHas (lowerStr message) "my name" || strHas (lowerStr message) "who am i"

/-- `ConversationalAgent.should_generate_story`: on success test for "yes";
on error fall back to the story/tale keyword check. -/
def should_generate_story (storyDetect : Except PyError String)
    (message : String) : Bool :=
  match storyDetect with
  | Except.ok r => strHas (lowerStr (pyStrip r)) "yes"
  | Except.error _ =>
      strHas (lowerStr message) "story" || strHas (lowerStr message) "tale"

/-- `ConversationalAgent._build_context_aware_prompt`: the raw message when
there is no recent history or the context-analysis call fails, otherwise
the stripped analyzer reply. -/
def build_context_aware_prompt (contextAnalysis : Except PyError String)
    (message : String) (history : List (String × String)) : String :=
  let recent := history.drop (history.length - maxContextAnalysisHistory)
  if recent.isEmpty then message
  else
    match contextAnalysis with
    | Except.ok r => pyStrip r
    | Except.error _ => message

/-- `ConversationalAgent.process_message`: the routing pipeline, with each
LLM call outcome taken from `calls`. A raised exception is modelled as
`Except.error`. `extract_user_info` runs first inside
`try ... except: pass`, so it can never raise and is omitted here. The
final plain-conversation branch calls
`generate_conversational_response`, which has no `try/except` — a failure
there propagates out of `process_message`. -/
def process_message (calls : RouterCalls) (message : String)
    (history : List (String × String)) (ctx : SessionCtx) :
    Except PyError RouteResult :=
  if is_inappropriate_content calls.safety then
    Except.ok (handleInappropriate ctx)
  else if is_question_about_self calls.selfInquiry message then
    Except.ok (handleSelfInquiry ctx)
  else if should_generate_story calls.storyDetect message then
    Except.ok (handleStoryRequest ctx
      (build_context_aware_prompt calls.contextAnalysis message history))
  else
    match calls.convReply with
    | Except.ok r =>
        Except.ok
          { kind := "conversation"
            response := r
            shouldGenerateStory := false
            storyPrompt := none }
    | Except.error e => Except.error e

/-! ## Workflow invariants and termination measure -/

/-- Inductive invariant of the graph: the iteration counter never exceeds
the budget, the increment node is only ever entered with room left in the
budget, and the formatter node is only ever entered below the
reformat-attempt ceiling. -/
def WInv (c : WConfig) : Prop :=
  c.iteration ≤ c.maxIterations ∧
  (c.node = .increment → c.iteration < c.maxIterations) ∧
  (c.node = .formatter → c.formatAttempts < 2)

/-- Weight of each node inside one loop round. -/
def nodeWeight : WNode → Nat
  | .done => 0
  | .finalize => 1
  | .increment => 2
  | .formatter => 3
  | .evaluator => 4
  | .creator => 5

/-- Termination measure: remaining iteration budget dominates, then the
remaining reformat budget (format_attempts never resets), then the node
position in the round. -/
def wMeasure (c : WConfig) : Nat :=
  if c.node = .done then 0
  else 100 * (c.maxIterations - c.iteration) +
    10 * (2 - c.formatAttempts) + nodeWeight c.node

/-! ## Concrete instances used for witnesses and counterexamples -/

/-- Oracles of a well-behaved LLM: the storyteller always returns a
well-formed two-paragraph story, the judge a fully approving evaluation. -/
def approvingOracles : Oracles :=
  { storyResponse := fun _ =>
      "TITLE: The Two Stars\nSTORY: First paragraph.\n\nSecond paragraph."
    judgeResponse := fun _ =>
      "CLARITY: 9\nMORAL: 9\nAGE_APPROPRIATE: 9\nOVERALL: 9\nAPPROVED: YES\nFEEDBACK: Lovely." }

/-- Oracles of the reformat-ceiling scenario: the storyteller always
produces a single paragraph, the judge never approves. -/
def oneParagraphOracles : Oracles :=
  { storyResponse := fun _ => "TITLE: T\nSTORY: one paragraph only"
    judgeResponse := fun _ =>
      "CLARITY: 5\nMORAL: 5\nAGE_APPROPRIATE: 5\nOVERALL: 5\nAPPROVED: NO\nFEEDBACK: needs work" }

/-- An evaluator-node configuration that has already spent both reformat
attempts on a still-misformatted draft. -/
def fmtCeilingConfig : WConfig :=
  { initConfig .short 3 with
      node := WNode.evaluator
      structureCorrect := false
      formatAttempts := 2 }

/-- Attempt function: the first model is rate limited, later ones work. -/
def attemptRateLimited : String → Except PyError String := fun m =>
  if m = "m1" then Except.error (PyError.groq "Rate limit reached, please retry")
  else if m = "m2" then Except.ok "model two response"
  else Except.ok "model three response"

/-- Attempt function: the first model fails with a non-retryable error. -/
def attemptFatal : String → Except PyError String := fun m =>
  if m = "m1" then Except.error (PyError.groq "connection refused")
  else Except.ok "model two response"

/-- Attempt function: every model is rate limited. -/
def attemptAllLimited : String → Except PyError String := fun _ =>
  Except.error (PyError.groq "rate limit exceeded")

/-- Router call outcomes: every classifier succeeds benignly, but the
conversational reply call raises. -/
def convFailureCalls : RouterCalls :=
  { safety := Except.ok "APPROPRIATE"
    selfInquiry := Except.ok "No"
    storyDetect := Except.ok "No"
    contextAnalysis := Except.ok "unused"
    convReply := Except.error (PyError.groq "service unavailable") }

/-! ## Proofs -/

lemma dropWhile_nil_of_forall {p : Char → Bool} {l : List Char}
    (h : ∀ c ∈ l, p c) : l.dropWhile p = [] := by
  rw [List.dropWhile_eq_nil_iff]
  exact h

lemma stripChars_empty_iff (cs : List Char) :
    (stripChars cs).isEmpty = !cs.any fun c => !pySpace c := by
  rcases h : cs.any fun c => !pySpace c with hv | hv
  · -- every character is whitespace, so both ends drop everything
    have hall : ∀ c ∈ cs, pySpace c := by
      intro c hc
      have := List.any_eq_false.mp h c hc
      simpa using this
    have h1 : cs.dropWhile pySpace = [] := dropWhile_nil_of_forall hall
    simp [stripChars, h1]
  · -- some character is not whitespace; it survives both dropWhile passes
    rcases List.any_eq_true.mp h with ⟨c, hc, hcp⟩
    have h1 : cs.dropWhile pySpace ≠ [] := by
      intro hnil
      have := List.dropWhile_eq_nil_iff.mp hnil c hc
      simp [hcp] at this
      simp [this] at hcp
    have hc2 : c ∈ cs.dropWhile pySpace := by
      have hsplit := List.takeWhile_append_dropWhile (p := pySpace) (l := cs)
      by_contra hnotin
      have : c ∈ cs.takeWhile pySpace := by
        have : c ∈ cs.takeWhile pySpace ++ cs.dropWhile pySpace := by
          rw [hsplit]; exact hc
        rcases List.mem_append.mp this with h' | h'
        · exact h'
        · exact absurd h' hnotin
      have := List.mem_takeWhile_imp this
      simp [this] at hcp
    have h3 : (cs.dropWhile pySpace).reverse.dropWhile pySpace ≠ [] := by
      intro hnil
      have := List.dropWhile_eq_nil_iff.mp hnil c (by simpa using hc2)
      simp [this] at hcp
    have : stripChars cs ≠ [] := by
      intro hnil
      exact h3 (by simpa [stripChars] using congrArg List.reverse hnil)
    simpa [List.isEmpty_iff] using this

/-- The two paragraph-count formulations agree on every string. -/
theorem count_paragraphs_eq_claim (s : String) :
    count_paragraphs s = claimParagraphCount s := by
  by_cases hs : s = ""
  · subst hs
    simp [count_paragraphs, claimParagraphCount, stripChars, pySplitBlank,
      splitGo]
  · unfold count_paragraphs claimParagraphCount
    rw [if_neg hs]
    congr 1
    apply List.filter_congr
    intro p _
    rw [stripChars_empty_iff]
    cases h : p.any fun c => !pySpace c <;> simp [h]

lemma searchFrom_prop {α : Type} (f : List Char → Option α) (P : α → Prop)
    (hf : ∀ cs r, f cs = some r → P r) :
    ∀ cs r, searchFrom f cs = some r → P r := by
  intro cs
  induction cs with
  | nil => intro r h; exact hf [] r h
  | cons c cs ih =>
      intro r h
      unfold searchFrom at h
      rcases hfc : f (c :: cs) with _ | v
      · rw [hfc] at h; exact ih r h
      · rw [hfc] at h; cases h; exact hf _ _ hfc

lemma scoreAt_digits (label cs : List Char) (ds : List Char)
    (h : scoreAt label cs = some ds) : ¬ds.isEmpty ∧ ds.all Char.isDigit := by
  unfold scoreAt at h
  rcases hm : matchLabel label cs with _ | rest
  · rw [hm] at h; cases h
  · rw [hm] at h
    simp only at h
    split at h
    · cases h
    · cases h
      constructor
      · assumption
      · rw [List.all_eq_true]
        intro c hc
        exact List.mem_takeWhile_imp hc

lemma findScore_pyInt (label s : String) (ds : List Char)
    (h : findScore label s = some ds) : pyInt ds = Except.ok (digitsToNat ds) := by
  have := searchFrom_prop (scoreAt label.data)
    (fun ds => ¬ds.isEmpty ∧ ds.all Char.isDigit)
    (fun cs r hr => scoreAt_digits _ _ _ hr) s.data ds h
  unfold pyInt
  rw [if_neg this.1, if_pos this.2]

lemma scoreField_ok (label s : String) :
    scoreField label s = Except.ok ((findScore label s).elim 7 digitsToNat) := by
  unfold scoreField
  rcases h : findScore label s with _ | ds
  · rfl
  · simpa using findScore_pyInt label s ds h

/-- The judge parser never raises: on every input it returns exactly the
total parse. -/
theorem parse_evaluation_never_raises (s : String) :
    parse_evaluation s = Except.ok (parse_evaluation_total s) := by
  unfold parse_evaluation parse_evaluation_total
  rw [scoreField_ok "CLARITY:", scoreField_ok "MORAL:",
    scoreField_ok "AGE_APPROPRIATE:", scoreField_ok "OVERALL:"]
  rfl

lemma next_step_format {a s : Bool} {f i m : Nat}
    (h : evaluator_next_step a s f i m = .format_paragraphs) :
    f < 2 ∧ s = false := by
  unfold evaluator_next_step at h
  split at h
  · cases h
  · split at h
    · split at h
      · cases h
      · rename_i hs _
        constructor
        · omega
        · simpa using hs
    · split at h
      · cases h
      · cases h

lemma next_step_refine {a s : Bool} {f i m : Nat}
    (h : evaluator_next_step a s f i m = .refine) :
    i < m ∧ s = true := by
  unfold evaluator_next_step at h
  split at h
  · cases h
  · split at h
    · split at h <;> cases h
    · split at h
      · cases h
      · rename_i hs hm
        constructor
        · omega
        · cases s
          · simp at hs
          · rfl

lemma step_maxIterations (o : Oracles) (c : WConfig) :
    (step o c).maxIterations = c.maxIterations := by
  unfold step
  cases c.node <;> simp
  rcases evaluator_next_step (approved_check
      (parse_evaluation_total (o.judgeResponse c.judgeCalls)))
      c.structureCorrect c.formatAttempts c.iteration c.maxIterations <;> simp

lemma step_preserves_inv (o : Oracles) (c : WConfig) (h : WInv c) :
    WInv (step o c) := by
  obtain ⟨h1, h2, h3⟩ := h
  unfold WInv step
  cases hn : c.node
  case creator => simpa using h1
  case evaluator =>
      simp only []
      rcases hns : evaluator_next_step (approved_check
          (parse_evaluation_total (o.judgeResponse c.judgeCalls)))
          c.structureCorrect c.formatAttempts c.iteration c.maxIterations
      case refine =>
        have := next_step_refine hns
        simp
        exact ⟨h1, this.1⟩
      case format_paragraphs =>
        have := next_step_format hns
        simp
        exact ⟨h1, this.1⟩
      case finalize => simpa using h1
  case formatter => simpa using h1
  case increment =>
      have := h2 hn
      simp
      omega
  case finalize => simpa using h1
  case done => simp [hn]; exact h1

lemma step_decreases (o : Oracles) (c : WConfig) (h : WInv c)
    (hnd : c.node ≠ .done) : wMeasure (step o c) < wMeasure c := by
  obtain ⟨h1, h2, h3⟩ := h
  unfold wMeasure step
  cases hn : c.node
  case creator => simp [nodeWeight]
  case evaluator =>
      simp only []
      rcases hns : evaluator_next_step (approved_check
          (parse_evaluation_total (o.judgeResponse c.judgeCalls)))
          c.structureCorrect c.formatAttempts c.iteration c.maxIterations
      case refine => simp [nodeWeight]
      case format_paragraphs => simp [nodeWeight]
      case finalize => simp [nodeWeight]
  case formatter =>
      have hf := h3 hn
      simp [nodeWeight]
      omega
  case increment =>
      have hi := h2 hn
      simp [nodeWeight]
      omega
  case finalize => simp [nodeWeight]
  case done => exact absurd hn hnd

lemma run_succ (o : Oracles) (c : WConfig) (n : Nat) :
    run o c (n + 1) = step o (run o c n) := by
  induction n generalizing c with
  | zero => rfl
  | succ n ih =>
      show run o (step o c) (n + 1) = _
      rw [ih (step o c)]
      rfl

lemma run_inv (o : Oracles) (c : WConfig) (h : WInv c) (k : Nat) :
    WInv (run o c k) := by
  induction k generalizing c with
  | zero => exact h
  | succ k ih => exact ih (step o c) (step_preserves_inv o c h)

lemma run_maxIterations (o : Oracles) (c : WConfig) (k : Nat) :
    (run o c k).maxIterations = c.maxIterations := by
  induction k generalizing c with
  | zero => rfl
  | succ k ih => rw [show run o c (k + 1) = run o (step o c) k from rfl,
      ih (step o c), step_maxIterations]

lemma step_done (o : Oracles) (c : WConfig) (h : c.node = .done) :
    step o c = c := by
  unfold step
  rw [h]

/-- Fuel `wMeasure c` always suffices: the graph reaches `END`. -/
lemma run_done (o : Oracles) (n : Nat) (c : WConfig) (h : WInv c)
    (hm : wMeasure c ≤ n) : (run o c n).node = .done := by
  induction n generalizing c with
  | zero =>
      by_contra hnd
      have hnd2 : c.node ≠ .done := hnd
      have hw : 1 ≤ nodeWeight c.node := by
        cases hcn : c.node
        case done => exact absurd hcn hnd2
        all_goals simp [nodeWeight]
      have : 1 ≤ wMeasure c := by
        unfold wMeasure
        rw [if_neg hnd2]
        omega
      omega
  | succ n ih =>
      by_cases hd : c.node = .done
      · have : run o c (n + 1) = run o (step o c) n := rfl
        rw [this, step_done o c hd]
        apply ih c h
        unfold wMeasure
        rw [if_pos hd]
        omega
      · have hlt := step_decreases o c h hd
        exact ih (step o c) (step_preserves_inv o c h) (by omega)

lemma next_step_finalize {a s : Bool} {f i m : Nat}
    (h : evaluator_next_step a s f i m = .finalize) :
    (a = true ∧ s = true) ∨ (s = false ∧ 2 ≤ f) ∨ m ≤ i := by
  unfold evaluator_next_step at h
  split at h
  · rename_i has
    rw [Bool.and_eq_true] at has
    exact Or.inl has
  · split at h
    · split at h
      · rename_i hs hf
        refine Or.inr (Or.inl ⟨?_, hf⟩)
        simpa using hs
      · cases h
    · split at h
      · rename_i hm
        exact Or.inr (Or.inr hm)
      · cases h

lemma step_increment (o : Oracles) (c : WConfig)
    (h : c.node = WNode.increment) :
    (step o c).iteration = c.iteration + 1 ∧ (step o c).node = WNode.creator := by
  simp [step, h]

lemma invokeAux_exhaust (attempt : String → Except PyError String)
    (retryable : PyError → Bool) (noneErr : PyError) :
    ∀ (cs : List String) (c : String) (lastE : Option PyError)
      (tried : List String),
      (∀ x ∈ cs ++ [c], ∃ e, attempt x = Except.error e ∧ retryable e = true) →
      ∃ e, attempt c = Except.error e ∧
        (invokeAux attempt retryable noneErr (cs ++ [c]) lastE tried).result =
          Except.error e := by
  intro cs
  induction cs with
  | nil =>
      intro c lastE tried h
      obtain ⟨e, he, hr⟩ := h c (by simp)
      refine ⟨e, he, ?_⟩
      simp [invokeAux, he, hr]
  | cons m cs ih =>
      intro c lastE tried h
      obtain ⟨em, hem, hrm⟩ := h m (by simp)
      obtain ⟨e, he, hres⟩ := ih c (some em) (m :: tried)
        (fun x hx => h x (by simp at hx ⊢; tauto))
      refine ⟨e, he, ?_⟩
      rw [List.cons_append]
      simpa [invokeAux, hem, hrm] using hres

/-! ## Claim theorems -/

/-- C1: after every EVALUATE step of the reflection workflow the next state
is chosen by exactly the priority-ordered rules of the specification: wrong
structure goes to REFORMAT unless the reformat-attempt ceiling (2) is
reached, in which case FINALIZE; else approval together with correct
structure goes to FINALIZE; else an exhausted iteration budget goes to
FINALIZE; otherwise REFINE, which increments the iteration counter, loops
back to the create/refine node, and the evaluator stores the critic's
feedback text for the refinement to consume. -/
theorem C1_evaluate_routing :
    (∀ (approved structure_ok : Bool)
        (format_attempts iteration max_iterations : Nat),
      evaluator_next_step approved structure_ok format_attempts iteration
          max_iterations =
        spec_next_step approved structure_ok format_attempts iteration
          max_iterations) ∧
    (∀ (o : Oracles) (c : WConfig), c.node = WNode.increment →
      (step o c).iteration = c.iteration + 1 ∧
        (step o c).node = WNode.creator) ∧
    (∀ (o : Oracles) (c : WConfig), c.node = WNode.evaluator →
      (step o c).evaluationFeedback =
        (parse_evaluation_total (o.judgeResponse c.judgeCalls)).feedback) := by
  refine ⟨?_, step_increment, ?_⟩
  · intro a s f i m
    cases a <;> cases s <;> simp [evaluator_next_step, spec_next_step]
  · intro o c h
    cases h2 : evaluator_next_step (approved_check
        (parse_evaluation_total (o.judgeResponse c.judgeCalls)))
        c.structureCorrect c.formatAttempts c.iteration c.maxIterations <;>
      simp [step, h, h2]

/-- C1 witness: the increment-node behaviour at a concrete configuration. -/
theorem C1_evaluate_routing_witness :
    (step approvingOracles
        { initConfig .short 3 with node := WNode.increment }).iteration =
      { initConfig .short 3 with node := WNode.increment }.iteration + 1 ∧
    (step approvingOracles
        { initConfig .short 3 with node := WNode.increment }).node =
      WNode.creator :=
  C1_evaluate_routing.2.1 approvingOracles
    { initConfig .short 3 with node := WNode.increment } rfl

/-- C2: the workflow's approval flag is true exactly when the overall score
is at least 9 and clarity, moral value and age appropriateness are each at
least 8; any single value below its threshold yields a false flag. -/
theorem C2_approval_threshold :
    (∀ ev : Evaluation, approved_check ev = true ↔
      9 ≤ ev.score ∧ 8 ≤ ev.clarity ∧ 8 ≤ ev.moralValue ∧
        8 ≤ ev.ageAppropriateness) ∧
    (∀ ev : Evaluation,
      ev.score < 9 ∨ ev.clarity < 8 ∨ ev.moralValue < 8 ∨
        ev.ageAppropriateness < 8 →
      approved_check ev = false) := by
  have hiff : ∀ ev : Evaluation, approved_check ev = true ↔
      9 ≤ ev.score ∧ 8 ≤ ev.clarity ∧ 8 ≤ ev.moralValue ∧
        8 ≤ ev.ageAppropriateness := by
    intro ev
    simp [approved_check, and_assoc]
  refine ⟨hiff, ?_⟩
  intro ev h
  cases hc : approved_check ev
  · rfl
  · have := (hiff ev).mp hc
    omega

/-- C2 witness: the threshold rule at two concrete evaluations — all four
values at threshold approve, an overall score of 8 rejects. -/
theorem C2_approval_threshold_witness :
    approved_check ⟨8, 8, 8, 9, false, ""⟩ = true ∧
    approved_check ⟨9, 9, 9, 8, false, ""⟩ = false :=
  ⟨(C2_approval_threshold.1 ⟨8, 8, 8, 9, false, ""⟩).mpr (by decide),
   C2_approval_threshold.2 ⟨9, 9, 9, 8, false, ""⟩ (Or.inl (by decide))⟩

/-- C3 counterexample: with a storyteller that always returns one paragraph
and a judge that never approves (max_iterations 3, short story), the run
enters the finalize node at step 6 with approved false, structure_correct
false and iteration 1 — finalization forced by the reformat-attempt ceiling
alone, a condition the claim does not allow. -/
theorem C3_counterexample :
    (run oneParagraphOracles (initConfig .short 3) 6).node = WNode.finalize ∧
    (run oneParagraphOracles (initConfig .short 3) 6).approved = false ∧
    (run oneParagraphOracles (initConfig .short 3) 6).structureCorrect =
      false ∧
    (run oneParagraphOracles (initConfig .short 3) 6).iteration = 1 ∧
    (run oneParagraphOracles (initConfig .short 3) 6).maxIterations = 3 := by
  decide

/-- C3 amended: a step enters the finalize node only when, in the resulting
state, approval and correct structure both hold, or the structure is wrong
and the reformat-attempt ceiling of 2 has been reached, or the iteration
budget is exhausted. -/
theorem C3_finalize_conditions (o : Oracles) (c : WConfig)
    (h : (step o c).node = WNode.finalize) :
    ((step o c).approved = true ∧ (step o c).structureCorrect = true) ∨
    ((step o c).structureCorrect = false ∧ 2 ≤ (step o c).formatAttempts) ∨
    (step o c).maxIterations ≤ (step o c).iteration := by
  cases hn : c.node
  case creator => simp [step, hn] at h
  case evaluator =>
      cases h2 : evaluator_next_step (approved_check
          (parse_evaluation_total (o.judgeResponse c.judgeCalls)))
          c.structureCorrect c.formatAttempts c.iteration c.maxIterations
      case refine => simp [step, hn, h2] at h
      case format_paragraphs => simp [step, hn, h2] at h
      case finalize =>
          have e1 : (step o c).approved = approved_check
              (parse_evaluation_total (o.judgeResponse c.judgeCalls)) := by
            simp [step, hn, h2]
          have e2 : (step o c).structureCorrect = c.structureCorrect := by
            simp [step, hn, h2]
          have e3 : (step o c).formatAttempts = c.formatAttempts := by
            simp [step, hn, h2]
          have e4 : (step o c).maxIterations = c.maxIterations := by
            simp [step, hn, h2]
          have e5 : (step o c).iteration = c.iteration := by
            simp [step, hn, h2]
          rw [e1, e2, e3, e4, e5]
          exact next_step_finalize h2
  case formatter => simp [step, hn] at h
  case increment => simp [step, hn] at h
  case finalize => simp [step, hn] at h
  case done => rw [step_done o c hn, hn] at h; cases h

/-- C3 amended witness: the finalize conditions at a concrete evaluator
configuration that has exhausted its reformat attempts. -/
theorem C3_finalize_conditions_witness :
    ((step oneParagraphOracles fmtCeilingConfig).approved = true ∧
      (step oneParagraphOracles fmtCeilingConfig).structureCorrect = true) ∨
    ((step oneParagraphOracles fmtCeilingConfig).structureCorrect = false ∧
      2 ≤ (step oneParagraphOracles fmtCeilingConfig).formatAttempts) ∨
    (step oneParagraphOracles fmtCeilingConfig).maxIterations ≤
      (step oneParagraphOracles fmtCeilingConfig).iteration :=
  C3_finalize_conditions oneParagraphOracles fmtCeilingConfig (by decide)

/-- C4: for any iteration budget N of at least 1 and any LLM behaviour, the
workflow terminates (the graph reaches END within its measure of steps),
the iteration counter never exceeds N at any point of the run, and every
pass through the increment node raises it by exactly one. -/
theorem C4_iteration_bound (o : Oracles) (lt : LengthType) (N : Nat)
    (hN : 1 ≤ N) :
    (run o (initConfig lt N) (wMeasure (initConfig lt N))).node =
      WNode.done ∧
    (∀ k, (run o (initConfig lt N) k).iteration ≤ N) ∧
    (∀ k, (run o (initConfig lt N) k).node = WNode.increment →
      (run o (initConfig lt N) (k + 1)).iteration =
        (run o (initConfig lt N) k).iteration + 1) := by
  have hinv : WInv (initConfig lt N) := by
    refine ⟨hN, ?_, ?_⟩ <;> intro h <;> simp [initConfig] at h
  refine ⟨run_done o _ _ hinv le_rfl, ?_, ?_⟩
  · intro k
    have h1 := (run_inv o _ hinv k).1
    rwa [run_maxIterations] at h1
  · intro k hk
    rw [run_succ]
    exact (step_increment o _ hk).1

/-- C4 witness: termination and the iteration bound for a concrete budget
of 2 with well-behaved oracles. -/
theorem C4_iteration_bound_witness :
    (run approvingOracles (initConfig .short 2)
        (wMeasure (initConfig .short 2))).node = WNode.done ∧
    (run approvingOracles (initConfig .short 2) 3).iteration ≤ 2 :=
  ⟨(C4_iteration_bound approvingOracles .short 2 (by decide)).1,
   (C4_iteration_bound approvingOracles .short 2 (by decide)).2.1 3⟩

/-- C5: candidates are tried strictly in order. A retryable failure
(classified by the case-insensitive substring tests on the error message)
on candidate 1 followed by success on candidate 2 returns candidate 2's
result having attempted exactly the first two candidates — candidate 3 is
never called; a non-retryable failure on candidate 1 raises it at once with
no further candidate attempted. -/
theorem C5_fallback_order :
    (∀ (attempt : String → Except PyError String) (c1 c2 : String)
        (rest : List String) (e : PyError) (r : String),
      attempt c1 = Except.error e → storytellerRetryable e = true →
      attempt c2 = Except.ok r →
      storyteller_invoke attempt (c1 :: c2 :: rest) =
        ⟨[c1, c2], Except.ok r⟩) ∧
    (∀ (attempt : String → Except PyError String) (c1 c2 : String)
        (rest : List String) (e : PyError),
      attempt c1 = Except.error e → storytellerRetryable e = false →
      storyteller_invoke attempt (c1 :: c2 :: rest) =
        ⟨[c1], Except.error e⟩) := by
  constructor
  · intro attempt c1 c2 rest e r h1 h2 h3
    simp [storyteller_invoke, invokeAux, h1, h2, h3]
  · intro attempt c1 c2 rest e h1 h2
    simp [storyteller_invoke, invokeAux, h1, h2]

/-- C5 witness: the fallback order at two concrete attempt functions. -/
theorem C5_fallback_order_witness :
    storyteller_invoke attemptRateLimited ["m1", "m2", "m3"] =
      ⟨["m1", "m2"], Except.ok "model two response"⟩ ∧
    storyteller_invoke attemptFatal ["m1", "m2"] =
      ⟨["m1"], Except.error (PyError.groq "connection refused")⟩ :=
  ⟨C5_fallback_order.1 attemptRateLimited "m1" "m2" ["m3"]
      (PyError.groq "Rate limit reached, please retry") "model two response"
      (by decide) (by decide) (by decide),
   C5_fallback_order.2 attemptFatal "m1" "m2" []
      (PyError.groq "connection refused") (by decide) (by decide)⟩

/-- C6 counterexample: when every candidate fails with a retryable error,
the invoker raises the last underlying Groq error itself — the raised value
is not the ModelExhaustedError wrapper of that error which the claim
describes (no such wrapper is ever constructed by the code). -/
theorem C6_counterexample :
    (storyteller_invoke attemptAllLimited ["m1", "m2"]).result =
      Except.error (PyError.groq "rate limit exceeded") ∧
    PyError.groq "rate limit exceeded" ≠
      PyError.modelExhausted (PyError.groq "rate limit exceeded") := by
  decide

/-- C6 amended: whenever the last candidate fails with a retryable error
(so all candidates were exhausted), both the storyteller/judge invoker and
the conversational invoker re-raise that last underlying error itself. -/
theorem C6_exhaustion_raises_underlying :
    (∀ (attempt : String → Except PyError String) (cs : List String)
        (c : String),
      (∀ x ∈ cs ++ [c], ∃ e, attempt x = Except.error e ∧
        storytellerRetryable e = true) →
      ∃ e, attempt c = Except.error e ∧
        (storyteller_invoke attempt (cs ++ [c])).result = Except.error e) ∧
    (∀ (attempt : String → Except PyError String) (cs : List String)
        (c : String),
      (∀ x ∈ cs ++ [c], ∃ e, attempt x = Except.error e ∧
        conversationRetryable e = true) →
      ∃ e, attempt c = Except.error e ∧
        (conversation_invoke attempt (cs ++ [c])).result = Except.error e) :=
  ⟨fun attempt cs c h => invokeAux_exhaust attempt storytellerRetryable
      (.runtimeError "All Groq models failed for storyteller") cs c none [] h,
   fun attempt cs c h => invokeAux_exhaust attempt conversationRetryable
      (.runtimeError "All Groq models failed for conversation") cs c none [] h⟩

/-- C6 amended witness: exhaustion on a concrete two-candidate list
re-raises the underlying rate-limit error. -/
theorem C6_exhaustion_witness :
    ∃ e, attemptAllLimited "m2" = Except.error e ∧
      (storyteller_invoke attemptAllLimited (["m1"] ++ ["m2"])).result =
        Except.error e :=
  C6_exhaustion_raises_underlying.1 attemptAllLimited ["m1"] "m2"
    (fun x _ => ⟨PyError.groq "rate limit exceeded", rfl, by decide⟩)

/-- C7: the judge evaluation parser never raises — on every input string
the potentially-raising int conversions succeed and the parser returns a
result — and each labeled field is extracted independently with its
documented default: 7 for any score whose pattern fails to match, false for
an absent approval label, the placeholder text for absent feedback. -/
theorem C7_parse_evaluation_robust (s : String) :
    parse_evaluation s = Except.ok (parse_evaluation_total s) ∧
    (findScore "CLARITY:" s = none →
      (parse_evaluation_total s).clarity = 7) ∧
    (findScore "MORAL:" s = none →
      (parse_evaluation_total s).moralValue = 7) ∧
    (findScore "AGE_APPROPRIATE:" s = none →
      (parse_evaluation_total s).ageAppropriateness = 7) ∧
    (findScore "OVERALL:" s = none →
      (parse_evaluation_total s).score = 7) ∧
    (searchFrom (yesNoAt "APPROVED:".data) s.data = none →
      (parse_evaluation_total s).approved = false) ∧
    (searchFrom (tailAt "FEEDBACK:".data) s.data = none →
      (parse_evaluation_total s).feedback = "Story evaluated.") := by
  refine ⟨parse_evaluation_never_raises s, ?_, ?_, ?_, ?_, ?_, ?_⟩ <;>
    intro h <;> simp [parse_evaluation_total, h]

/-- C7 witness: the parser on a concrete malformed input returns all the
defaults without raising. -/
theorem C7_parse_evaluation_robust_witness :
    parse_evaluation "*** malformed ***" =
      Except.ok (parse_evaluation_total "*** malformed ***") ∧
    (parse_evaluation_total "*** malformed ***").clarity = 7 ∧
    (parse_evaluation_total "*** malformed ***").approved = false ∧
    (parse_evaluation_total "*** malformed ***").feedback =
      "Story evaluated." :=
  ⟨(C7_parse_evaluation_robust "*** malformed ***").1,
   (C7_parse_evaluation_robust "*** malformed ***").2.1 (by decide),
   (C7_parse_evaluation_robust "*** malformed ***").2.2.2.2.2.1 (by decide),
   (C7_parse_evaluation_robust "*** malformed ***").2.2.2.2.2.2 (by decide)⟩

/-- C8 counterexample: on the response "STORY: xyz" the TITLE label is
absent, so per the claim the parser should fall back to the default title
and treat the entire response text as the content; the code instead keeps
the extracted story block "xyz", which differs from the entire response. -/
theorem C8_counterexample :
    parse_story_response "STORY: xyz" =
      { title := "A Bedtime Story", content := "xyz" } ∧
    ("xyz" : String) ≠ "STORY: xyz" := by
  decide

/-- C8 amended: the two fallbacks are independent — a missing TITLE label
yields the default title, a missing STORY label makes the entire response
the content, and a present label always yields its extracted (stripped)
capture. -/
theorem C8_title_content_fallbacks (s : String) :
    (searchFrom titleAt s.data = none →
      (parse_story_response s).title = "A Bedtime Story") ∧
    (∀ t, searchFrom titleAt s.data = some t →
      (parse_story_response s).title = String.mk (stripChars t)) ∧
    (searchFrom (tailAt "STORY:".data) s.data = none →
      (parse_story_response s).content = s) ∧
    (∀ b, searchFrom (tailAt "STORY:".data) s.data = some b →
      (parse_story_response s).content = String.mk b) := by
  refine ⟨?_, ?_, ?_, ?_⟩
  · intro h; simp [parse_story_response, h]
  · intro t h; simp [parse_story_response, h]
  · intro h; simp [parse_story_response, h]
  · intro b h; simp [parse_story_response, h]

/-- C8 amended witness: both fallbacks at a concrete label-free response. -/
theorem C8_title_content_fallbacks_witness :
    (parse_story_response "no labels here").title = "A Bedtime Story" ∧
    (parse_story_response "no labels here").content = "no labels here" :=
  ⟨(C8_title_content_fallbacks "no labels here").1 (by decide),
   (C8_title_content_fallbacks "no labels here").2.2.1 (by decide)⟩

/-- C9 counterexample: a failure of a single underlying LLM call — the
conversational reply generation — does propagate out of process_message:
with all classifiers succeeding benignly on the plain message "hello
there", the router raises the reply call's error instead of returning a
routing result. -/
theorem C9_counterexample :
    process_message convFailureCalls "hello there" [] ⟨none, none⟩ =
      Except.error (PyError.groq "service unavailable") := by
  decide

/-- C9 amended: the four classifier calls (safety, self-inquiry,
story-request, context analysis) degrade gracefully — whenever the
conversational reply call succeeds (or routing short-circuits before it), a
routing result is returned no matter which classifiers fail; with all four
classifiers failing, routing follows the documented keyword fallbacks and
the fail-open safety default. Only a failure of the plain-conversation
reply generation itself propagates. -/
theorem C9_classifier_failures_never_raise :
    (∀ (calls : RouterCalls) (msg : String)
        (hist : List (String × String)) (ctx : SessionCtx) (r : String),
      calls.convReply = Except.ok r →
      ∃ res, process_message calls msg hist ctx = Except.ok res) ∧
    (∀ (e1 e2 e3 e4 : PyError) (r msg : String)
        (hist : List (String × String)) (ctx : SessionCtx),
      process_message ⟨Except.error e1, Except.error e2, Except.error e3,
          Except.error e4, Except.ok r⟩ msg hist ctx =
        Except.ok
          (if strHas (lowerStr msg) "my name" ||
              strHas (lowerStr msg) "who am i"
            then handleSelfInquiry ctx
          else if strHas (lowerStr msg) "story" ||
              strHas (lowerStr msg) "tale"
            then handleStoryRequest ctx msg
          else ⟨"conversation", r, false, none⟩)) := by
  constructor
  · intro calls msg hist ctx r h
    unfold process_message
    split
    · exact ⟨_, rfl⟩
    · split
      · exact ⟨_, rfl⟩
      · split
        · exact ⟨_, rfl⟩
        · rw [h]
          exact ⟨_, rfl⟩
  · intro e1 e2 e3 e4 r msg hist ctx
    simp only [process_message, is_inappropriate_content,
      is_question_about_self, should_generate_story,
      build_context_aware_prompt, ite_self, Bool.false_eq_true, if_false]
    by_cases hA : (strHas (lowerStr msg) "my name" ||
        strHas (lowerStr msg) "who am i") = true
    · simp [hA]
    · by_cases hB : (strHas (lowerStr msg) "story" ||
          strHas (lowerStr msg) "tale") = true
      · simp [hA, hB]
      · simp [hA, hB]

/-- C9 amended witness: with all four classifiers failing and the reply
call succeeding, a concrete self-inquiry message routes by the keyword
fallback and returns a result. -/
theorem C9_classifier_failures_never_raise_witness :
    process_message ⟨Except.error (PyError.groq "a"),
        Except.error (PyError.groq "b"), Except.error (PyError.groq "c"),
        Except.error (PyError.groq "d"), Except.ok "hi"⟩
      "what is my name" [] ⟨some "Mia", none⟩ =
      Except.ok
        (if strHas (lowerStr "what is my name") "my name" ||
            strHas (lowerStr "what is my name") "who am i"
          then handleSelfInquiry ⟨some "Mia", none⟩
        else if strHas (lowerStr "what is my name") "story" ||
            strHas (lowerStr "what is my name") "tale"
          then handleStoryRequest ⟨some "Mia", none⟩ "what is my name"
        else ⟨"conversation", "hi", false, none⟩) :=
  C9_classifier_failures_never_raise.2 (PyError.groq "a") (PyError.groq "b")
    (PyError.groq "c") (PyError.groq "d") "hi" "what is my name" []
    ⟨some "Mia", none⟩

/-- C10: count_paragraphs is total and equals the number of segments
containing at least one non-whitespace character when the stripped text is
split at matches of newline, optional whitespace, newline; the empty string
counts 0 paragraphs; and after every create/refine (creator) or reformat
(formatter) step the structure flag equals the comparison of the recomputed
paragraph count of the new content with the target paragraph count. -/
theorem C10_paragraph_counting :
    (∀ s, count_paragraphs s = claimParagraphCount s) ∧
    count_paragraphs "" = 0 ∧
    (∀ (o : Oracles) (c : WConfig),
      c.node = WNode.creator ∨ c.node = WNode.formatter →
      (step o c).structureCorrect =
        (count_paragraphs (step o c).storyContent ==
          (step o c).targetParagraphs)) := by
  refine ⟨count_paragraphs_eq_claim, by decide, ?_⟩
  intro o c h
  rcases h with h | h <;> simp [step, h]

/-- C10 witness: the structure flag after a concrete creator step. -/
theorem C10_paragraph_counting_witness :
    (step approvingOracles (initConfig .short 3)).structureCorrect =
      (count_paragraphs
          (step approvingOracles (initConfig .short 3)).storyContent ==
        (step approvingOracles (initConfig .short 3)).targetParagraphs) :=
  C10_paragraph_counting.2.2 approvingOracles (initConfig .short 3)
    (Or.inl rfl)

end Sleepy
